import Mathlib

/-!
Verification of the subscription lifecycle of the discord-quote-bot.

The bot (src/unnamed/part_000) handles three commands inside its
messageCreate listener: a message starting with "!inspire" fetches a quote,
posts it to the channel and, when a stored phone record is truthy, publishes
it as an SMS; "!subscribe" runs a DM conversation collecting a phone number,
subscribes it to an SNS topic and stores it with a "pending:" prefix;
"!unsubscribe" deletes the stored record when present.

We embed each branch as a function from an outcome oracle (the result of
every awaited external call, in source order) to the list of external calls
the branch performs, in order.  JavaScript truthiness of the stored value
(null or the empty string are falsy) is modelled explicitly, as is the
try/catch structure: a failing awaited call jumps to the catch block, which
sends the branch's generic error DM via message.author.send.
-/

/-- Outcome of one awaited external call: success with a value, or a thrown
rejection (the JS catch path). -/
inductive Res (α : Type) where
  | ok : α → Res α
  | err : Res α
deriving DecidableEq

def Res.isOk {α : Type} : Res α → Bool
  | .ok _ => true
  | .err => false

/-- One external call made by a handler, recorded in source order.  The Bool
on the DynamoDB write events records whether the call succeeded, so that the
store semantics below can ignore failed writes. -/
inductive Event where
  | fetchQuote : Event
  | channelSend : String → Event
  | ddbGet : String → Event
  | snsPublish : String → String → Event
  | snsSubscribe : String → String → Event
  | authorDM : String → String → Event
  | dmChanSend : String → Event
  | createDM : String → Event
  | awaitReplies : Nat → Event
  | ddbPut : String → String → Bool → Event
  | ddbDelete : String → Bool → Event
deriving DecidableEq

/-- The generic error DM of the !inspire branch (source line 162). -/
def inspireErrText : String :=
  "Something went wrong while fetching your inspirational quote. Please try again later."

/-- The SMS acknowledgment DM of the !inspire branch (source line 158). -/
def inspireAckText : String :=
  "Your inspirational quote has been sent to your phone!"

/-- The prompt of the !subscribe branch (source line 169). -/
def subscribePromptText : String :=
  "Please reply with your phone number to subscribe to SMS notifications:"

/-- The pending-confirmation acknowledgment of the !subscribe branch
(source line 178). -/
def subscribeAckText : String :=
  "Thank you! A confirmation message has been sent to your phone. Please reply to confirm your subscription."

/-- The generic error DM of the !subscribe branch (source line 185). -/
def subscribeErrText : String :=
  "There was an error subscribing your phone number. Please try again."

/-- The confirmation DM of the !unsubscribe branch (source line 194). -/
def unsubscribeOkText : String :=
  "Your phone number has been unsubscribed from SMS notifications."

/-- The no-record DM of the !unsubscribe branch (source line 197). -/
def notSubscribedText : String :=
  "You are not subscribed to SMS notifications."

/-- The generic error DM of the !unsubscribe branch (source line 201). -/
def unsubscribeErrText : String :=
  "There was an error unsubscribing your phone number. Please try again."

/-- The reply-wait window of awaitMessages (source line 171). -/
def subscribeTimeoutMs : Nat := 60000

/-- Outcomes of the awaited calls of the !inspire branch, in source order:
getQuote, message.channel.send, getPhoneNumber (None models a missing Item,
i.e. JS null), publishMessage, and the acknowledgment author.send. -/
structure InspireEnv where
  quoteRes : Res String
  chanRes : Res Unit
  getRes : Res (Option String)
  pubRes : Res String
  ackRes : Res Unit
deriving DecidableEq

/-- The !inspire branch (source lines 150-164).  `if (phoneNumber)` is JS
truthiness: null (None) and the empty string skip the SMS block. -/
def handleInspire (userId : String) (env : InspireEnv) : List Event :=
  Event.fetchQuote ::
  match env.quoteRes with
  | .err => [Event.authorDM userId inspireErrText]
  | .ok quote =>
    Event.channelSend quote ::
    match env.chanRes with
    | .err => [Event.authorDM userId inspireErrText]
    | .ok _ =>
      Event.ddbGet userId ::
      match env.getRes with
      | .err => [Event.authorDM userId inspireErrText]
      | .ok none => []
      | .ok (some phoneNumber) =>
        if phoneNumber == "" then []
        else
          Event.snsPublish phoneNumber quote ::
          match env.pubRes with
          | .err => [Event.authorDM userId inspireErrText]
          | .ok _ =>
            Event.authorDM userId inspireAckText ::
            match env.ackRes with
            | .err => [Event.authorDM userId inspireErrText]
            | .ok _ => []

/-- Outcomes of the awaited calls of the !subscribe branch, in source order:
createDM, the prompt dmChannel.send, awaitMessages (err is the timeout
rejection), subscribePhoneNumberToTopic, the acknowledgment dmChannel.send,
and savePhoneNumber. -/
structure SubscribeEnv where
  dmRes : Res Unit
  promptRes : Res Unit
  replyRes : Res String
  subRes : Res String
  ackRes : Res Unit
  saveRes : Res Unit
deriving DecidableEq

/-- The !subscribe branch (source lines 166-187).  The reply content is
trimmed, the trimmed number is subscribed to the topic, the acknowledgment
is sent, and only then is the value "pending:" ++ phoneNumber saved. -/
def handleSubscribe (userId topicArn : String) (env : SubscribeEnv) : List Event :=
  Event.createDM userId ::
  match env.dmRes with
  | .err => [Event.authorDM userId subscribeErrText]
  | .ok _ =>
    Event.dmChanSend subscribePromptText ::
    match env.promptRes with
    | .err => [Event.authorDM userId subscribeErrText]
    | .ok _ =>
      Event.awaitReplies subscribeTimeoutMs ::
      match env.replyRes with
      | .err => [Event.authorDM userId subscribeErrText]
      | .ok reply =>
        let phoneNumber := reply.trim
        Event.snsSubscribe phoneNumber topicArn ::
        match env.subRes with
        | .err => [Event.authorDM userId subscribeErrText]
        | .ok _ =>
          Event.dmChanSend subscribeAckText ::
          match env.ackRes with
          | .err => [Event.authorDM userId subscribeErrText]
          | .ok _ =>
            Event.ddbPut userId ("pending:" ++ phoneNumber) env.saveRes.isOk ::
            match env.saveRes with
            | .err => [Event.authorDM userId subscribeErrText]
            | .ok _ => []

/-- Outcomes of the awaited calls of the !unsubscribe branch, in source
order: getPhoneNumber, deletePhoneNumber, and whichever author.send runs
inside the try block on the taken path. -/
structure UnsubscribeEnv where
  getRes : Res (Option String)
  delRes : Res Unit
  sendRes : Res Unit
deriving DecidableEq

/-- The !unsubscribe branch (source lines 189-203).  `if (phoneNumber)` is
JS truthiness again: a present record whose stored value is the empty
string takes the else branch. -/
def handleUnsubscribe (userId : String) (env : UnsubscribeEnv) : List Event :=
  Event.ddbGet userId ::
  match env.getRes with
  | .err => [Event.authorDM userId unsubscribeErrText]
  | .ok none =>
    Event.authorDM userId notSubscribedText ::
    match env.sendRes with
    | .err => [Event.authorDM userId unsubscribeErrText]
    | .ok _ => []
  | .ok (some phoneNumber) =>
    if phoneNumber == "" then
      Event.authorDM userId notSubscribedText ::
      match env.sendRes with
      | .err => [Event.authorDM userId unsubscribeErrText]
      | .ok _ => []
    else
      Event.ddbDelete userId env.delRes.isOk ::
      match env.delRes with
      | .err => [Event.authorDM userId unsubscribeErrText]
      | .ok _ =>
        Event.authorDM userId unsubscribeOkText ::
        match env.sendRes with
        | .err => [Event.authorDM userId unsubscribeErrText]
        | .ok _ => []

/-- Per-invocation oracles for all three branches. -/
structure MessageEnv where
  inspireEnv : InspireEnv
  subscribeEnv : SubscribeEnv
  unsubscribeEnv : UnsubscribeEnv

/-- The messageCreate listener (source lines 145-204): bot authors are
ignored, then each of the three independent startsWith guards runs its
branch. -/
def messageCreate (isBot : Bool) (content userId topicArn : String)
    (env : MessageEnv) : List Event :=
  if isBot then []
  else
    (if content.startsWith "!inspire" then handleInspire userId env.inspireEnv else []) ++
    (if content.startsWith "!subscribe" then
      handleSubscribe userId topicArn env.subscribeEnv else []) ++
    (if content.startsWith "!unsubscribe" then
      handleUnsubscribe userId env.unsubscribeEnv else [])

/-- The DynamoDB table: user id to stored PhoneNumber attribute. -/
def Store : Type := String → Option String

/-- Effect of one recorded call on the table: only successful puts and
deletes change it. -/
def applyEvent (store : Store) : Event → Store
  | .ddbPut u v true => fun k => if k == u then some v else store k
  | .ddbDelete u true => fun k => if k == u then none else store k
  | _ => store

/-- Effect of a whole trace on the table, left to right. -/
def applyTrace (store : Store) : List Event → Store
  | [] => store
  | e :: rest => applyTrace (applyEvent store e) rest

/-- Test for the pending marker convention of the stored value
(savePhoneNumber is always called with a "pending:"-prefixed value,
source line 181). -/
def hasPendingMarker (s : String) : Bool :=
  "pending:".data.isPrefixOf s.data

/-- The spec's three-valued phone state. -/
inductive PhoneState where
  | Unset : PhoneState
  | Pending : String → PhoneState
  | Confirmed : String → PhoneState
deriving DecidableEq

/-- Decode of a stored value into the spec's phone state: absent is Unset,
a "pending:"-prefixed value is Pending of the rest, anything else is
Confirmed. -/
def decodeRecord : Option String → PhoneState
  | none => .Unset
  | some s =>
    if hasPendingMarker s then .Pending (String.mk (s.data.drop 8))
    else .Confirmed s

def isPublish : Event → Bool
  | .snsPublish _ _ => true
  | _ => false

def isSubscribeCall : Event → Bool
  | .snsSubscribe _ _ => true
  | _ => false

def isPut : Event → Bool
  | .ddbPut _ _ _ => true
  | _ => false

def isDelete : Event → Bool
  | .ddbDelete _ _ => true
  | _ => false

/-- Scanning a trace left to right, no DynamoDB put occurs before the first
SNS subscribe call. -/
def noPutBeforeSubscribe : List Event → Bool
  | [] => true
  | .ddbPut _ _ _ :: _ => false
  | .snsSubscribe _ _ :: _ => true
  | _ :: rest => noPutBeforeSubscribe rest

/-- A fully successful inspire oracle over a Pending stored record. -/
def inspireEnvPending : InspireEnv :=
  { quoteRes := .ok "Stay hungry. -Jobs"
    chanRes := .ok ()
    getRes := .ok (some "pending:+15551234567")
    pubRes := .ok "mid-1"
    ackRes := .ok () }

/-- Claim C1 (code bug witness): the stored record "pending:+15551234567"
is Pending, yet a fully successful !inspire invocation performs exactly one
SNS publish, with the pending-marked stored value as the phone number, and
sends the SMS acknowledgment DM; the claim and spec say a Pending record
triggers zero publish calls and no acknowledgment. -/
theorem C1_pending_record_is_published :
    decodeRecord (some "pending:+15551234567") = PhoneState.Pending "+15551234567" ∧
    (handleInspire "user1" inspireEnvPending).countP isPublish = 1 ∧
    Event.snsPublish "pending:+15551234567" "Stay hungry. -Jobs" ∈
      handleInspire "user1" inspireEnvPending ∧
    Event.authorDM "user1" inspireAckText ∈ handleInspire "user1" inspireEnvPending := by
  refine ⟨by decide, ?_, ?_, ?_⟩ <;> decide

/-- The value savePhoneNumber is called with always carries the pending
marker. -/
theorem pendingMarker_append (p : String) :
    hasPendingMarker ("pending:" ++ p) = true := by
  rw [hasPendingMarker, String.data_append, List.isPrefixOf_iff_prefix]
  exact List.prefix_append _ _

/-- Claim C8: when the quote fetch fails, the !inspire branch sends the
generic failure DM and stops: no channel post, no record lookup, no SMS
publish. -/
theorem C8_quote_failure_stops_inspire (userId : String) (env : InspireEnv)
    (hq : env.quoteRes = Res.err) :
    handleInspire userId env = [Event.fetchQuote, Event.authorDM userId inspireErrText] ∧
    (handleInspire userId env).countP isPublish = 0 ∧
    Event.ddbGet userId ∉ handleInspire userId env ∧
    ∀ t, Event.channelSend t ∉ handleInspire userId env := by
  rw [handleInspire, hq]
  refine ⟨rfl, ?_, ?_, ?_⟩ <;> simp [isPublish]

def inspireEnvQuoteErr : InspireEnv :=
  { quoteRes := .err
    chanRes := .ok ()
    getRes := .ok none
    pubRes := .ok "mid-0"
    ackRes := .ok () }

theorem C8_witness :
    handleInspire "user1" inspireEnvQuoteErr =
      [Event.fetchQuote, Event.authorDM "user1" inspireErrText] ∧
    (handleInspire "user1" inspireEnvQuoteErr).countP isPublish = 0 ∧
    Event.ddbGet "user1" ∉ handleInspire "user1" inspireEnvQuoteErr ∧
    ∀ t, Event.channelSend t ∉ handleInspire "user1" inspireEnvQuoteErr :=
  C8_quote_failure_stops_inspire "user1" inspireEnvQuoteErr rfl

/-- Test for the SMS-sent acknowledgment DM of the !inspire branch. -/
def isInspireAck (u : String) : Event → Bool
  | .authorDM u' t => u' == u && t == inspireAckText
  | _ => false

/-- Claim C7 (amended): for a stored record that decodes to Confirmed with
a nonempty phone number, a fully successful !inspire invocation performs
exactly one SNS publish, with the quote as payload, then exactly one
acknowledgment DM, both after the channel post of the quote; the original
universally quantified claim fails on the degenerate Confirmed record whose
stored value is the empty string, which JS truthiness skips. -/
theorem C7_confirmed_inspire_publishes (userId p q m : String) (env : InspireEnv)
    (hq : env.quoteRes = Res.ok q) (hc : env.chanRes = Res.ok ())
    (hget : env.getRes = Res.ok (some p))
    (hconf : decodeRecord (some p) = PhoneState.Confirmed p)
    (hp : (p == "") = false)
    (hpub : env.pubRes = Res.ok m) (hack : env.ackRes = Res.ok ()) :
    handleInspire userId env =
      [Event.fetchQuote, Event.channelSend q, Event.ddbGet userId,
       Event.snsPublish p q, Event.authorDM userId inspireAckText] ∧
    (handleInspire userId env).countP isPublish = 1 ∧
    (handleInspire userId env).countP (isInspireAck userId) = 1 := by
  rw [handleInspire, hq, hc, hget, hpub, hack]
  refine ⟨?_, ?_, ?_⟩ <;> simp [hp, isPublish, isInspireAck]

def inspireEnvConfirmed : InspireEnv :=
  { quoteRes := .ok "Q -A"
    chanRes := .ok ()
    getRes := .ok (some "+15551234567")
    pubRes := .ok "mid-2"
    ackRes := .ok () }

theorem C7_witness :
    handleInspire "user1" inspireEnvConfirmed =
      [Event.fetchQuote, Event.channelSend "Q -A", Event.ddbGet "user1",
       Event.snsPublish "+15551234567" "Q -A", Event.authorDM "user1" inspireAckText] ∧
    (handleInspire "user1" inspireEnvConfirmed).countP isPublish = 1 ∧
    (handleInspire "user1" inspireEnvConfirmed).countP (isInspireAck "user1") = 1 :=
  C7_confirmed_inspire_publishes "user1" "+15551234567" "Q -A" "mid-2"
    inspireEnvConfirmed rfl rfl rfl (by decide) (by decide) rfl rfl

def inspireEnvConfirmedEmpty : InspireEnv :=
  { quoteRes := .ok "Q -A"
    chanRes := .ok ()
    getRes := .ok (some "")
    pubRes := .ok "mid-3"
    ackRes := .ok () }

/-- Claim C7 (counterexample): the stored value "" decodes to a Confirmed
record, yet a fully successful !inspire invocation performs zero SNS
publish calls and sends no acknowledgment, because the empty string is
falsy in JS. -/
theorem C7_empty_confirmed_no_publish :
    decodeRecord (some "") = PhoneState.Confirmed "" ∧
    handleInspire "user1" inspireEnvConfirmedEmpty =
      [Event.fetchQuote, Event.channelSend "Q -A", Event.ddbGet "user1"] ∧
    (handleInspire "user1" inspireEnvConfirmedEmpty).countP isPublish = 0 := by
  refine ⟨by decide, by decide, by decide⟩

/-- Claim C5: when no record is stored, the !unsubscribe branch sends the
"not subscribed" DM and performs no delete call, and the stored state stays
Unset. -/
theorem C5_no_record_unsubscribe (userId : String) (env : UnsubscribeEnv)
    (store : Store) (hget : env.getRes = Res.ok none)
    (hstore : store userId = none) :
    Event.authorDM userId notSubscribedText ∈ handleUnsubscribe userId env ∧
    (handleUnsubscribe userId env).countP isDelete = 0 ∧
    decodeRecord (applyTrace store (handleUnsubscribe userId env) userId) =
      PhoneState.Unset := by
  rw [handleUnsubscribe, hget]
  cases env.sendRes <;>
    simp [isDelete, applyTrace, applyEvent, hstore, decodeRecord]

def unsubEnvNoRecord : UnsubscribeEnv :=
  { getRes := .ok none, delRes := .ok (), sendRes := .ok () }

def storeEmpty : Store := fun _ => none

theorem C5_witness :
    Event.authorDM "user1" notSubscribedText ∈ handleUnsubscribe "user1" unsubEnvNoRecord ∧
    (handleUnsubscribe "user1" unsubEnvNoRecord).countP isDelete = 0 ∧
    decodeRecord (applyTrace storeEmpty (handleUnsubscribe "user1" unsubEnvNoRecord) "user1") =
      PhoneState.Unset :=
  C5_no_record_unsubscribe "user1" unsubEnvNoRecord storeEmpty rfl rfl

/-- Claim C6 (amended): for a present stored record whose value is nonempty
(every Pending record and every Confirmed record with a nonempty phone
number), a successful !unsubscribe deletes the record and then sends the
confirmation DM, the delete strictly before the confirmation, and the
resulting state is Unset; the original claim fails on the degenerate
present record whose stored value is the empty string, which JS truthiness
routes to the "not subscribed" branch with no delete. -/
theorem C6_present_record_unsubscribe (userId p : String) (env : UnsubscribeEnv)
    (store : Store) (hget : env.getRes = Res.ok (some p))
    (hp : (p == "") = false)
    (hdel : env.delRes = Res.ok ()) (hsend : env.sendRes = Res.ok ()) :
    handleUnsubscribe userId env =
      [Event.ddbGet userId, Event.ddbDelete userId true,
       Event.authorDM userId unsubscribeOkText] ∧
    decodeRecord (applyTrace store (handleUnsubscribe userId env) userId) =
      PhoneState.Unset := by
  rw [handleUnsubscribe, hget, hdel, hsend]
  refine ⟨?_, ?_⟩ <;>
    simp [hp, applyTrace, applyEvent, Res.isOk, decodeRecord]

def unsubEnvPresent : UnsubscribeEnv :=
  { getRes := .ok (some "pending:+15551234567"), delRes := .ok (), sendRes := .ok () }

def storePresent : Store := fun _ => some "pending:+15551234567"

theorem C6_witness :
    handleUnsubscribe "user1" unsubEnvPresent =
      [Event.ddbGet "user1", Event.ddbDelete "user1" true,
       Event.authorDM "user1" unsubscribeOkText] ∧
    decodeRecord (applyTrace storePresent (handleUnsubscribe "user1" unsubEnvPresent) "user1") =
      PhoneState.Unset :=
  C6_present_record_unsubscribe "user1" "pending:+15551234567" unsubEnvPresent
    storePresent rfl (by decide) rfl rfl

def unsubEnvEmptyVal : UnsubscribeEnv :=
  { getRes := .ok (some ""), delRes := .ok (), sendRes := .ok () }

/-- Claim C6 (counterexample): the stored value "" is a present record and
decodes to Confirmed, yet !unsubscribe performs no delete call and sends
the "not subscribed" DM instead of the confirmation. -/
theorem C6_empty_record_not_deleted :
    decodeRecord (some "") = PhoneState.Confirmed "" ∧
    handleUnsubscribe "user1" unsubEnvEmptyVal =
      [Event.ddbGet "user1", Event.authorDM "user1" notSubscribedText] ∧
    (handleUnsubscribe "user1" unsubEnvEmptyVal).countP isDelete = 0 := by
  refine ⟨by decide, by decide, by decide⟩

/-- Claim C10: the !unsubscribe branch never calls the notification
adapter: zero SNS publish calls and zero SNS subscribe calls, for every
stored state and every call outcome. -/
theorem C10_unsubscribe_no_sns (userId : String) (env : UnsubscribeEnv) :
    (handleUnsubscribe userId env).countP isPublish = 0 ∧
    (handleUnsubscribe userId env).countP isSubscribeCall = 0 := by
  rw [handleUnsubscribe]
  cases env.getRes with
  | err => simp [isPublish, isSubscribeCall]
  | ok o =>
    cases o with
    | none => cases env.sendRes <;> simp [isPublish, isSubscribeCall]
    | some p =>
      cases hp : p == "" <;>
        cases env.delRes <;> cases env.sendRes <;>
          simp [isPublish, isSubscribeCall, hp]

/-- Claim C4: when the prompt gets no reply within the 60000 ms window, the
!subscribe branch sends the generic subscription error DM and writes no
record: the trace is exactly prompt, wait, error DM, with zero puts. -/
theorem C4_timeout_writes_nothing (userId topicArn : String) (env : SubscribeEnv)
    (hdm : env.dmRes = Res.ok ()) (hprompt : env.promptRes = Res.ok ())
    (htimeout : env.replyRes = Res.err) :
    handleSubscribe userId topicArn env =
      [Event.createDM userId, Event.dmChanSend subscribePromptText,
       Event.awaitReplies 60000, Event.authorDM userId subscribeErrText] ∧
    (handleSubscribe userId topicArn env).countP isPut = 0 := by
  rw [handleSubscribe, hdm, hprompt, htimeout]
  refine ⟨?_, ?_⟩ <;> simp [subscribeTimeoutMs, isPut]

def subEnvTimeout : SubscribeEnv :=
  { dmRes := .ok (), promptRes := .ok (), replyRes := .err
    subRes := .ok "arn-sub-0", ackRes := .ok (), saveRes := .ok () }

theorem C4_witness :
    handleSubscribe "user1" "topicA" subEnvTimeout =
      [Event.createDM "user1", Event.dmChanSend subscribePromptText,
       Event.awaitReplies 60000, Event.authorDM "user1" subscribeErrText] ∧
    (handleSubscribe "user1" "topicA" subEnvTimeout).countP isPut = 0 :=
  C4_timeout_writes_nothing "user1" "topicA" subEnvTimeout rfl rfl rfl

/-- Claim C3: when the SNS subscribe call fails, the outer catch sends the
generic subscription error DM, no put is performed, and the stored table is
left unchanged by the whole trace. -/
theorem C3_adapter_failure_writes_nothing (userId topicArn r : String)
    (env : SubscribeEnv)
    (hdm : env.dmRes = Res.ok ()) (hprompt : env.promptRes = Res.ok ())
    (hreply : env.replyRes = Res.ok r) (hsub : env.subRes = Res.err) :
    handleSubscribe userId topicArn env =
      [Event.createDM userId, Event.dmChanSend subscribePromptText,
       Event.awaitReplies 60000, Event.snsSubscribe r.trim topicArn,
       Event.authorDM userId subscribeErrText] ∧
    (handleSubscribe userId topicArn env).countP isPut = 0 ∧
    ∀ (store : Store) (u : String),
      applyTrace store (handleSubscribe userId topicArn env) u = store u := by
  rw [handleSubscribe, hdm, hprompt, hreply, hsub]
  refine ⟨?_, ?_, ?_⟩ <;> simp [subscribeTimeoutMs, isPut, applyTrace, applyEvent]

def subEnvAdapterErr : SubscribeEnv :=
  { dmRes := .ok (), promptRes := .ok (), replyRes := .ok " +15551234567 "
    subRes := .err, ackRes := .ok (), saveRes := .ok () }

theorem C3_witness :
    handleSubscribe "user1" "topicA" subEnvAdapterErr =
      [Event.createDM "user1", Event.dmChanSend subscribePromptText,
       Event.awaitReplies 60000,
       Event.snsSubscribe (" +15551234567 ").trim "topicA",
       Event.authorDM "user1" subscribeErrText] ∧
    (handleSubscribe "user1" "topicA" subEnvAdapterErr).countP isPut = 0 ∧
    ∀ (store : Store) (u : String),
      applyTrace store (handleSubscribe "user1" "topicA" subEnvAdapterErr) u = store u :=
  C3_adapter_failure_writes_nothing "user1" "topicA" " +15551234567 "
    subEnvAdapterErr rfl rfl rfl rfl

/-- Claim C2: once a reply has arrived, every put the !subscribe branch
performs stores exactly "pending:" ++ trim(reply) under the author's id,
requires the SNS subscribe call to have succeeded, and occurs strictly
after that subscribe call in the trace. -/
theorem C2_put_is_trimmed_pending_after_adapter (userId topicArn r : String)
    (env : SubscribeEnv)
    (hdm : env.dmRes = Res.ok ()) (hprompt : env.promptRes = Res.ok ())
    (hreply : env.replyRes = Res.ok r) :
    (∀ u v b, Event.ddbPut u v b ∈ handleSubscribe userId topicArn env →
      u = userId ∧ v = "pending:" ++ r.trim ∧ ∃ a, env.subRes = Res.ok a) ∧
    noPutBeforeSubscribe (handleSubscribe userId topicArn env) = true := by
  rw [handleSubscribe, hdm, hprompt, hreply]
  cases hs : env.subRes with
  | err => simp [noPutBeforeSubscribe]
  | ok a =>
    cases env.ackRes <;> cases env.saveRes <;>
      exact ⟨by intro u v b h; simp_all [Res.isOk], by simp [noPutBeforeSubscribe]⟩

def subEnvAllOk : SubscribeEnv :=
  { dmRes := .ok (), promptRes := .ok (), replyRes := .ok " +15551234567 "
    subRes := .ok "arn-sub-1", ackRes := .ok (), saveRes := .ok () }

theorem C2_witness :
    (∀ u v b, Event.ddbPut u v b ∈ handleSubscribe "user1" "topicA" subEnvAllOk →
      u = "user1" ∧ v = "pending:" ++ (" +15551234567 ").trim ∧
      ∃ a, subEnvAllOk.subRes = Res.ok a) ∧
    noPutBeforeSubscribe (handleSubscribe "user1" "topicA" subEnvAllOk) = true :=
  C2_put_is_trimmed_pending_after_adapter "user1" "topicA" " +15551234567 "
    subEnvAllOk rfl rfl rfl

/-- The !inspire branch performs no DynamoDB put on any path. -/
theorem inspire_no_put (userId : String) (env : InspireEnv) :
    ∀ u v b, Event.ddbPut u v b ∈ handleInspire userId env → False := by
  rw [handleInspire]
  cases env.quoteRes with
  | err => simp
  | ok q =>
    cases env.chanRes with
    | err => simp
    | ok _ =>
      cases env.getRes with
      | err => simp
      | ok o =>
        cases o with
        | none => simp
        | some p =>
          cases hp : p == "" <;>
            cases env.pubRes <;> cases env.ackRes <;> simp [hp]

/-- The !unsubscribe branch performs no DynamoDB put on any path. -/
theorem unsubscribe_no_put (userId : String) (env : UnsubscribeEnv) :
    ∀ u v b, Event.ddbPut u v b ∈ handleUnsubscribe userId env → False := by
  rw [handleUnsubscribe]
  cases env.getRes with
  | err => simp
  | ok o =>
    cases o with
    | none => cases env.sendRes <;> simp
    | some p =>
      cases hp : p == "" <;>
        cases env.delRes <;> cases env.sendRes <;> simp [hp]

/-- Every DynamoDB put of the !subscribe branch stores a value carrying the
pending marker, on every path and for every call outcome. -/
theorem subscribe_put_pending (userId topicArn : String) (env : SubscribeEnv) :
    ∀ u v b, Event.ddbPut u v b ∈ handleSubscribe userId topicArn env →
      hasPendingMarker v = true := by
  rw [handleSubscribe]
  cases env.dmRes with
  | err => simp
  | ok _ =>
    cases env.promptRes with
    | err => simp
    | ok _ =>
      cases env.replyRes with
      | err => simp
      | ok r =>
        cases env.subRes with
        | err => simp
        | ok _ =>
          cases env.ackRes <;> cases env.saveRes <;>
            intro u v b h <;> simp_all [pendingMarker_append]

/-- Every DynamoDB put of the whole messageCreate listener stores a value
carrying the pending marker. -/
theorem messageCreate_put_pending (isBot : Bool) (content userId topicArn : String)
    (env : MessageEnv) :
    ∀ u v b, Event.ddbPut u v b ∈ messageCreate isBot content userId topicArn env →
      hasPendingMarker v = true := by
  intro u v b hmem
  rw [messageCreate] at hmem
  split at hmem
  · simp at hmem
  · rcases List.mem_append.mp hmem with h | h
    · rcases List.mem_append.mp h with h2 | h2
      · split at h2
        · exact absurd h2 (fun hc => inspire_no_put userId env.inspireEnv u v b hc)
        · simp at h2
      · split at h2
        · exact subscribe_put_pending userId topicArn env.subscribeEnv u v b h2
        · simp at h2
    · split at h
      · exact absurd h (fun hc => unsubscribe_no_put userId env.unsubscribeEnv u v b hc)
      · simp at h

/-- Running a trace whose puts all carry the pending marker leaves each key
either unchanged, deleted, or holding a pending-marked value. -/
theorem applyTrace_pending_preserved (tr : List Event) :
    ∀ (store : Store) (u : String),
      (∀ u' v b, Event.ddbPut u' v b ∈ tr → hasPendingMarker v = true) →
      applyTrace store tr u = store u ∨ applyTrace store tr u = none ∨
      ∃ v, applyTrace store tr u = some v ∧ hasPendingMarker v = true := by
  induction tr with
  | nil => intro store u _; exact Or.inl rfl
  | cons e rest ih =>
    intro store u h
    have hrest := ih (applyEvent store e) u
      (fun u' v b hm => h u' v b (List.mem_cons_of_mem _ hm))
    have he : applyEvent store e u = store u ∨ applyEvent store e u = none ∨
        ∃ v, applyEvent store e u = some v ∧ hasPendingMarker v = true := by
      cases e with
      | ddbPut u' v b =>
        cases b with
        | false => exact Or.inl rfl
        | true =>
          have hv : hasPendingMarker v = true :=
            h u' v true (List.mem_cons_self _ _)
          by_cases hu : (u == u') = true
          · refine Or.inr (Or.inr ⟨v, ?_, hv⟩)
            simp [applyEvent, hu]
          · refine Or.inl ?_
            simp [applyEvent, hu]
      | ddbDelete u' b =>
        cases b with
        | false => exact Or.inl rfl
        | true =>
          by_cases hu : (u == u') = true
          · refine Or.inr (Or.inl ?_)
            simp [applyEvent, hu]
          · refine Or.inl ?_
            simp [applyEvent, hu]
      | fetchQuote => exact Or.inl rfl
      | channelSend t => exact Or.inl rfl
      | ddbGet x => exact Or.inl rfl
      | snsPublish x y => exact Or.inl rfl
      | snsSubscribe x y => exact Or.inl rfl
      | authorDM x y => exact Or.inl rfl
      | dmChanSend t => exact Or.inl rfl
      | createDM x => exact Or.inl rfl
      | awaitReplies n => exact Or.inl rfl
    rw [applyTrace]
    rcases hrest with h1 | h1 | ⟨v, h1, h2⟩
    · rw [h1]; exact he
    · exact Or.inr (Or.inl h1)
    · exact Or.inr (Or.inr ⟨v, h1, h2⟩)

/-- Claim C9: every value the messageCreate listener ever puts into
DynamoDB carries the pending marker, and a user whose stored record
decodes to Pending can never decode to Confirmed after any command runs,
for every command text, oracle and starting table. -/
theorem C9_only_pending_persisted (isBot : Bool)
    (content userId topicArn u r : String) (env : MessageEnv) (store : Store)
    (hpend : decodeRecord (store u) = PhoneState.Pending r) :
    (∀ u' v b, Event.ddbPut u' v b ∈ messageCreate isBot content userId topicArn env →
      hasPendingMarker v = true) ∧
    ∀ q, decodeRecord
        (applyTrace store (messageCreate isBot content userId topicArn env) u)
      ≠ PhoneState.Confirmed q := by
  have hput := messageCreate_put_pending isBot content userId topicArn env
  refine ⟨hput, ?_⟩
  intro q
  rcases applyTrace_pending_preserved _ store u hput with h1 | h1 | ⟨v, h1, h2⟩
  · rw [h1, hpend]; simp
  · rw [h1]; simp [decodeRecord]
  · rw [h1]; simp [decodeRecord, h2]

def msgEnvSubscribeOnly : MessageEnv :=
  { inspireEnv :=
      { quoteRes := .err, chanRes := .err, getRes := .err, pubRes := .err, ackRes := .err }
    subscribeEnv := subEnvAllOk
    unsubscribeEnv := { getRes := .err, delRes := .err, sendRes := .err } }

def storePending : Store := fun _ => some "pending:+15550001111"

theorem C9_witness :
    (∀ u' v b,
      Event.ddbPut u' v b ∈ messageCreate false "!subscribe" "user1" "topicA" msgEnvSubscribeOnly →
      hasPendingMarker v = true) ∧
    ∀ q, decodeRecord
        (applyTrace storePending
          (messageCreate false "!subscribe" "user1" "topicA" msgEnvSubscribeOnly) "user1")
      ≠ PhoneState.Confirmed q :=
  C9_only_pending_persisted false "!subscribe" "user1" "topicA" "user1" "+15550001111"
    msgEnvSubscribeOnly storePending (by decide)
